import Mathlib

/-!
Verification of the micro-task API gateway against its design spec.

The gateway (src/api-gateway/src/index.js) is an Express app whose request
pipeline is, in registration order: pino logging (line 15) and helmet
(line 29), which only add log output and security response headers; cors
(line 30), registered with no options, whose dependency default terminates
every OPTIONS preflight with 204 before any later stage runs; express.json
(line 31), which parses bodies (requests carry no body in this model, and a
malformed body is answered 400 here, before the limiter); the rate limiter
(line 38); the X-Request-ID middleware (lines 71-76); the `GET /` metadata
route (line 79); the public users proxy mounted at `/api/v1/users/auth`
(line 131); the protected users proxy at `/api/v1/users` (line 134); the
protected orders proxy at `/api/v1/orders` (line 135); the `GET /health`
route (line 138) and the catch-all 404 handler (line 143).  `handle` below
models the chain from the limiter on; `gatewayHandle` puts the cors stage
in front of it.  The users service
(src/unnamed/part_000) signs JWTs with claims `userId`, `email`, `roles`
and default secret `my-key`; the gateway verifies with default secret
`your-secret-key`.
-/

/-! ## Rate limiter

The fixed-window counter itself lives in the `express-rate-limit`
dependency, not under src/; src/api-gateway/src/index.js lines 34-38 only
configure it (window 15 minutes, ceiling 100).  The algorithm is modelled
from the spec, section 4.2. -/

/-- A rate-limit bucket: window start timestamp and request count
(spec section 3, Rate Limit Bucket). -/
structure Bucket where
  windowStart : Nat
  count : Nat

deriving instance DecidableEq for Bucket

/-- Modelled from the spec (section 4.2), the algorithm of the
express-rate-limit dependency configured in src/api-gateway/src/index.js
lines 34-38: if no bucket exists or the window has elapsed
(now - windowStart >= W) a new bucket is created with count 1 and the
request is admitted; otherwise the count is incremented and the request is
admitted iff the resulting count is at most the ceiling C. -/
def rateAllow (W C now : Nat) (b : Option Bucket) : Bool × Bucket :=
  match b with
  | none => (true, { windowStart := now, count := 1 })
  | some bk =>
    if W ≤ now - bk.windowStart then
      (true, { windowStart := now, count := 1 })
    else
      (decide (bk.count + 1 ≤ C), { windowStart := bk.windowStart, count := bk.count + 1 })

/-- Fold a sequence of request timestamps through the rate limiter,
keeping only the bucket state. -/
def applyN (W C : Nat) (ts : List Nat) (b : Option Bucket) : Option Bucket :=
  ts.foldl (fun bk t => some (rateAllow W C t bk).2) b

/-- Window configured at src/api-gateway/src/index.js line 35: 15 minutes
in milliseconds. -/
def windowMs : Nat := 15 * 60 * 1000

/-- Ceiling configured at src/api-gateway/src/index.js line 36. -/
def maxReqs : Nat := 100

/-- Look up a client key in the bucket store. -/
def lookupB : List (String × Bucket) → String → Option Bucket
  | [], _ => none
  | (k, b) :: rest, key => if k = key then some b else lookupB rest key

/-- Update (or insert) a client key in the bucket store. -/
def updateB : List (String × Bucket) → String → Bucket → List (String × Bucket)
  | [], key, b => [(key, b)]
  | (k, b0) :: rest, key, b =>
    if k = key then (k, b) :: rest else (k, b0) :: updateB rest key b

/-! ## Correlation ids -/

/-- Modelled from the spec (section 4.3): `uuidv4()` at
src/api-gateway/src/index.js line 72 supplies "a freshly generated unique
identifier".  The generator is modelled as a deterministic sequence indexed
by a per-process draw counter; successive draws are pairwise distinct and
non-empty, which is the property the spec relies on. -/
def genUuid (n : Nat) : String := String.mk (List.replicate (n + 1) 'u')

/-- The choice made at src/api-gateway/src/index.js line 72:
`req.headers[x-request-id] || uuidv4()`.  A missing header and an empty
header are both falsy in JS, so both draw a fresh id (advancing the draw
counter); a non-empty inbound value is kept unchanged. -/
def chooseRequestId (inbound : Option String) (ctr : Nat) : String × Nat :=
  match inbound with
  | some v => if v = "" then (genUuid ctr, ctr + 1) else (v, ctr)
  | none => (genUuid ctr, ctr + 1)

/-! ## Tokens and claims -/

/-- A JS value that can appear as a header value in this model. -/
inductive JsVal where
  | str : String → JsVal
  | strList : List String → JsVal

deriving instance DecidableEq for JsVal

/-- The claims object signed by the users service
(src/unnamed/part_000 lines 156-164 and 233-241):
`{ userId: user.id, email: user.email, roles: user.roles }`. -/
structure TokenClaims where
  userId : String
  email : String
  roles : List String

deriving instance DecidableEq for TokenClaims

/-- JS property access on the decoded JWT payload object.  Its own keys are
exactly the ones the users service signs (`userId`, `email`, `roles`, plus
the numeric `iat`/`exp` registered claims added by the jwt library, which
are not strings and are never read as header values); any other key -
in particular `role` - yields `undefined`, modelled as `none`. -/
def claimsGet (c : TokenClaims) (key : String) : Option JsVal :=
  if key = "userId" then some (JsVal.str c.userId)
  else if key = "email" then some (JsVal.str c.email)
  else if key = "roles" then some (JsVal.strList c.roles)
  else none

/-- Gateway verification secret default, src/api-gateway/src/index.js
line 12. -/
def gatewayJwtSecret : String := "your-secret-key"

/-- Users service signing secret default, src/unnamed/part_000 line 11. -/
def usersJwtSecret : String := "my-key"

/-- A signed token: the claims, the secret it was signed with and its
issue/expiry instants. -/
structure SignedToken where
  claims : TokenClaims
  secret : String
  iat : Nat
  exp : Nat

deriving instance DecidableEq for SignedToken

/-- The signing call of the users service register/login endpoints
(src/unnamed/part_000 lines 156-164 and 233-241):
`jwt.sign({userId, email, roles}, JWT_SECRET, {expiresIn: 24h})` with the
default secret. -/
def usersServiceSign (c : TokenClaims) (now : Nat) : SignedToken :=
  { claims := c, secret := usersJwtSecret, iat := now, exp := now + 24 * 60 * 60 * 1000 }

/-- Modelled from the spec (section 4.1): verification is a pure function
of (token, secret, current time); it checks the signature against the
secret and expiry against the current time, and succeeds exactly when the
token was signed with the same secret and is unexpired, returning the
embedded claims. -/
def verifyToken (now : Nat) (secret : String) (t : SignedToken) : Option TokenClaims :=
  if t.secret = secret ∧ now < t.exp then some t.claims else none

/-- The gateway's `jwt.verify(token, JWT_SECRET)` at
src/api-gateway/src/index.js line 56, over an ambient decoding of the
presented token string back to the signed token it encodes. -/
def gatewayVerify (decode : String → Option SignedToken) (now : Nat) :
    String → Option TokenClaims :=
  fun s => (decode s).bind (verifyToken now gatewayJwtSecret)

/-! ## Token extraction (authenticateToken, index.js lines 41-68) -/

/-- JS `String.prototype.split` with the single-character separator used at
src/api-gateway/src/index.js line 43, on the character list of the string:
splitting never collapses runs of separators and an empty input yields one
empty group, exactly as in JS. -/
def splitChars : List Char → List (List Char)
  | [] => [[]]
  | c :: rest =>
    let r := splitChars rest
    if c = ' ' then [] :: r
    else
      match r with
      | [] => [[c]]
      | g :: gs => (c :: g) :: gs

/-- Token extraction at src/api-gateway/src/index.js lines 42-43:
`authHeader && authHeader.split(' ')[1]` followed by the `if (!token)`
guard at line 45.  A missing header, an empty header, a header with no
second space-separated segment, and an empty second segment are all falsy
and yield no token. -/
def extractToken (authHeader : Option String) : Option String :=
  match authHeader with
  | none => none
  | some h =>
    if h.data = [] then none
    else
      match (splitChars h.data).drop 1 with
      | [] => none
      | t :: _ => if t = [] then none else some (String.mk t)

/-- Result of the authenticateToken middleware. -/
inductive AuthResult where
  | missing : AuthResult
  | invalid : AuthResult
  | ok : TokenClaims → AuthResult

deriving instance DecidableEq for AuthResult

/-- The authenticateToken middleware, src/api-gateway/src/index.js
lines 41-68, over an abstract verifier: no token yields the 401 branch
(lines 45-53), a token the verifier rejects yields the 403 branch
(lines 59-67), and a verified token attaches the decoded claims as
`req.user` (line 57). -/
def authenticateToken (verify : String → Option TokenClaims)
    (authHeader : Option String) : AuthResult :=
  match extractToken authHeader with
  | none => AuthResult.missing
  | some t =>
    match verify t with
    | none => AuthResult.invalid
    | some u => AuthResult.ok u

/-! ## Routing and proxying -/

/-- Boolean prefix test on character lists. -/
def listIsPre : List Char → List Char → Bool
  | [], _ => true
  | _ :: _, [] => false
  | a :: as, b :: bs => a == b && listIsPre as bs

/-- Express mount-path matching for `app.use(mount, handler)`: the request
path matches when it equals the mount path or continues it at a `/`
boundary. -/
def mountMatches (mount path : String) : Bool :=
  path == mount || listIsPre ((mount ++ "/").data) path.data

/-- The `pathRewrite` option of http-proxy-middleware as configured at
src/api-gateway/src/index.js lines 105-107 and 119-121: replace the
leading occurrence of the source pattern by the target. -/
def rewritePath (pat dst path : String) : String :=
  if listIsPre pat.data path.data then dst ++ String.mk (path.data.drop pat.data.length)
  else path

/-- The options object passed to createProxyMiddleware.  The source
configures target, changeOrigin, pathRewrite and onProxyReq only: there is
no onError handler and no timeout of any kind
(src/api-gateway/src/index.js lines 102-114 and 116-128). -/
structure ProxyOptions where
  target : String
  changeOrigin : Bool
  rewritePat : String
  rewriteDst : String
  hasOnError : Bool
  proxyTimeout : Option Nat

deriving instance DecidableEq for ProxyOptions

/-- usersServiceProxy options, src/api-gateway/src/index.js lines 102-114
(USERS_SERVICE_URL unset, so the default target applies). -/
def usersProxyOptions : ProxyOptions :=
  { target := "http://localhost:3001", changeOrigin := true,
    rewritePat := "/api/v1/users", rewriteDst := "/api/v1",
    hasOnError := false, proxyTimeout := none }

/-- ordersServiceProxy options, src/api-gateway/src/index.js lines 116-128
(ORDERS_SERVICE_URL unset, so the default target applies). -/
def ordersProxyOptions : ProxyOptions :=
  { target := "http://localhost:3002", changeOrigin := true,
    rewritePat := "/api/v1/orders", rewriteDst := "/api/v1",
    hasOnError := false, proxyTimeout := none }

/-- An outbound call handed to the proxy: upstream base, rewritten path,
the identity headers set by onProxyReq, and the correlation id (which the
X-Request-ID middleware wrote both into `req.headers` - copied to the
upstream - and onto the response, index.js lines 73-74). -/
structure Forwarded where
  target : String
  outPath : String
  xUserId : Option JsVal
  xUserRole : Option JsVal
  resXRequestId : String

deriving instance DecidableEq for Forwarded

/-- Build the outbound call for one proxy: apply the configured rewrite and
run onProxyReq (src/api-gateway/src/index.js lines 108-113 and 122-127),
which when `req.user` is present sets `X-User-ID` from `req.user.userId`
and `X-User-Role` from `req.user.role` - dynamic property reads on the
decoded payload.  Node's setHeader in fact raises on an undefined value, so
when the role read yields none the real outbound call errors rather than
completing without the header; the model keeps the absent-header forward,
which understates that failure but records the decisive fact: the
principal's roles never reach the upstream. -/
def runProxy (opts : ProxyOptions) (path : String) (user : Option TokenClaims)
    (rid : String) : Forwarded :=
  { target := opts.target
    outPath := rewritePath opts.rewritePat opts.rewriteDst path
    xUserId := user.bind (fun u => claimsGet u "userId")
    xUserRole := user.bind (fun u => claimsGet u "role")
    resXRequestId := rid }

/-- A gateway-authored HTTP response: status, the `error.code` field of the
JSON envelope when there is one, and the X-Request-ID response header when
one was stamped. -/
structure Response where
  status : Nat
  errorCode : Option String
  xRequestId : Option String

deriving instance DecidableEq for Response

/-- Neither proxy registers an onError handler or a timeout (the options
objects above), so an upstream connection failure is answered by the proxy
dependency's built-in fallback: a plain-text response with no JSON
envelope, status 504 for a refused or unreachable connection, while
response headers already stamped by earlier middleware (X-Request-ID)
remain in place. -/
def connFailureResponse (f : Forwarded) : Response :=
  { status := 504, errorCode := none, xRequestId := some f.resXRequestId }

/-! ## The pipeline -/

/-- An inbound request as the gateway observes it. -/
structure Request where
  method : String
  path : String
  authorization : Option String
  xRequestId : Option String
  clientKey : String
  now : Nat

deriving instance DecidableEq for Request

/-- What the gateway does with a request: answer it itself, or forward it
to an upstream. -/
inductive Outcome where
  | respond : Response → Outcome
  | forward : Forwarded → Outcome

deriving instance DecidableEq for Outcome

/-- The route classes of the gateway, in registration order. -/
inductive Route where
  | root : Route
  | usersPublic : Route
  | usersProt : Route
  | ordersProt : Route
  | health : Route
  | notFound : Route

deriving instance DecidableEq for Route

/-- Express route matching in registration order
(src/api-gateway/src/index.js lines 79, 131, 134, 135, 138, 143): the
first match wins; longest-prefix matching is not used. -/
def routeOf (method path : String) : Route :=
  if method == "GET" && path == "/" then Route.root
  else if mountMatches "/api/v1/users/auth" path then Route.usersPublic
  else if mountMatches "/api/v1/users" path then Route.usersProt
  else if mountMatches "/api/v1/orders" path then Route.ordersProt
  else if method == "GET" && path == "/health" then Route.health
  else Route.notFound

/-- Mutable per-process gateway state: the rate-limit bucket store and the
uuid draw counter. -/
structure GatewayState where
  buckets : List (String × Bucket)
  uuidCounter : Nat

deriving instance DecidableEq for GatewayState

/-- The X-Request-ID value a given outcome carries back to the client. -/
def respXrid : Outcome → Option String
  | Outcome.respond r => r.xRequestId
  | Outcome.forward f => some f.resXRequestId

/-- A protected mount: authenticateToken then the proxy
(src/api-gateway/src/index.js lines 134-135).  The error branches are the
ones authenticateToken writes (lines 46-52 and 60-66). -/
def protectedDispatch (verify : String → Option TokenClaims) (opts : ProxyOptions)
    (req : Request) (rid : String) : Outcome :=
  match authenticateToken verify req.authorization with
  | AuthResult.missing =>
    Outcome.respond { status := 401, errorCode := some "UNAUTHORIZED", xRequestId := some rid }
  | AuthResult.invalid =>
    Outcome.respond { status := 403, errorCode := some "INVALID_TOKEN", xRequestId := some rid }
  | AuthResult.ok u => Outcome.forward (runProxy opts req.path (some u) rid)

/-- Dispatch a request that passed the rate limiter and the X-Request-ID
middleware to the routes, in registration order. -/
def dispatch (verify : String → Option TokenClaims) (req : Request) (rid : String) : Outcome :=
  match routeOf req.method req.path with
  | Route.root =>
    Outcome.respond { status := 200, errorCode := none, xRequestId := some rid }
  | Route.usersPublic => Outcome.forward (runProxy usersProxyOptions req.path none rid)
  | Route.usersProt => protectedDispatch verify usersProxyOptions req rid
  | Route.ordersProt => protectedDispatch verify ordersProxyOptions req rid
  | Route.health =>
    Outcome.respond { status := 200, errorCode := none, xRequestId := some rid }
  | Route.notFound =>
    Outcome.respond { status := 404, errorCode := some "NOT_FOUND", xRequestId := some rid }

/-- Whether the rate limiter admits this request in this state. -/
def rateAdmits (st : GatewayState) (req : Request) : Bool :=
  (rateAllow windowMs maxReqs req.now (lookupB st.buckets req.clientKey)).1

/-- One request through the gateway pipeline in middleware registration
order: the rate limiter runs first (src/api-gateway/src/index.js line 38)
and a rejected request is answered 429 at once - the library default: no
JSON envelope, and the X-Request-ID middleware (lines 71-76) has not run,
so no X-Request-ID header.  An admitted request is stamped with its
correlation id and dispatched to the routes.  Either way the request
counts against the client's bucket. -/
def handle (verify : String → Option TokenClaims) (st : GatewayState) (req : Request) :
    Outcome × GatewayState :=
  let b1 := (rateAllow windowMs maxReqs req.now (lookupB st.buckets req.clientKey)).2
  let st1 : GatewayState := { buckets := updateB st.buckets req.clientKey b1,
                              uuidCounter := st.uuidCounter }
  if rateAdmits st req then
    let rc := chooseRequestId req.xRequestId st.uuidCounter
    (dispatch verify req rc.1, { st1 with uuidCounter := rc.2 })
  else
    (Outcome.respond { status := 429, errorCode := none, xRequestId := none }, st1)

/-- The pipeline including the cors stage registered before the limiter:
`app.use(cors())` at src/api-gateway/src/index.js line 30, with no options,
so the dependency default applies - every OPTIONS preflight is answered 204
there without calling next, leaving the gateway state untouched: neither
the limiter nor the X-Request-ID middleware nor any route ever sees it.
Every other request continues into `handle` (the chain from the limiter
on). -/
def gatewayHandle (verify : String → Option TokenClaims) (st : GatewayState)
    (req : Request) : Outcome × GatewayState :=
  if req.method == "OPTIONS" then
    (Outcome.respond { status := 204, errorCode := none, xRequestId := none }, st)
  else
    handle verify st req

/-! ## Helper lemmas -/

theorem lookupB_updateB (l : List (String × Bucket)) (k : String) (b : Bucket) :
    lookupB (updateB l k b) k = some b := by
  induction l with
  | nil => simp [updateB, lookupB]
  | cons hd tl ih =>
    obtain ⟨k0, b0⟩ := hd
    by_cases h : k0 = k
    · simp [updateB, lookupB, h]
    · simp [updateB, lookupB, h, ih]

theorem applyN_in_window (W C : Nat) (ts : List Nat) (t0 : Nat) (n : Nat)
    (h : ∀ s ∈ ts, s - t0 < W) :
    applyN W C ts (some { windowStart := t0, count := n }) =
      some { windowStart := t0, count := n + ts.length } := by
  induction ts generalizing n with
  | nil => simp [applyN]
  | cons s rest ih =>
    have hs : ¬ W ≤ s - t0 := Nat.not_le.mpr (h s (by simp))
    have hrest : ∀ x ∈ rest, x - t0 < W := fun x hx => h x (by simp [hx])
    have hstep : applyN W C (s :: rest) (some { windowStart := t0, count := n }) =
        applyN W C rest (some { windowStart := t0, count := n + 1 }) := by
      simp [applyN, rateAllow, hs]
    rw [hstep, ih (n + 1) hrest]
    have hc : n + 1 + rest.length = n + (s :: rest).length := by
      simp; omega
    rw [hc]

theorem genUuid_ne_of_ne {a b : Nat} (h : a ≠ b) : genUuid a ≠ genUuid b := by
  intro he
  apply h
  have hd : List.replicate (a + 1) 'u' = List.replicate (b + 1) 'u' :=
    congrArg String.data he
  have hl := congrArg List.length hd
  simpa using hl

theorem genUuid_ne_empty (n : Nat) : genUuid n ≠ "" := by
  intro he
  have hd : List.replicate (n + 1) 'u' = ([] : List Char) := congrArg String.data he
  simp at hd

theorem respXrid_protectedDispatch (verify : String → Option TokenClaims)
    (opts : ProxyOptions) (req : Request) (rid : String) :
    respXrid (protectedDispatch verify opts req rid) = some rid := by
  unfold protectedDispatch
  cases authenticateToken verify req.authorization <;> simp [respXrid, runProxy]

theorem respXrid_dispatch (verify : String → Option TokenClaims) (req : Request)
    (rid : String) : respXrid (dispatch verify req rid) = some rid := by
  unfold dispatch
  cases routeOf req.method req.path with
  | usersProt => exact respXrid_protectedDispatch verify usersProxyOptions req rid
  | ordersProt => exact respXrid_protectedDispatch verify ordersProxyOptions req rid
  | root => rfl
  | usersPublic => rfl
  | health => rfl
  | notFound => rfl

theorem handle_admitted (verify : String → Option TokenClaims) (st : GatewayState)
    (req : Request) (h : rateAdmits st req = true) :
    handle verify st req =
      (dispatch verify req (chooseRequestId req.xRequestId st.uuidCounter).1,
       { buckets := updateB st.buckets req.clientKey
           (rateAllow windowMs maxReqs req.now (lookupB st.buckets req.clientKey)).2,
         uuidCounter := (chooseRequestId req.xRequestId st.uuidCounter).2 }) := by
  simp [handle, h]

theorem handle_rejected (verify : String → Option TokenClaims) (st : GatewayState)
    (req : Request) (h : rateAdmits st req = false) :
    handle verify st req =
      (Outcome.respond { status := 429, errorCode := none, xRequestId := none },
       { buckets := updateB st.buckets req.clientKey
           (rateAllow windowMs maxReqs req.now (lookupB st.buckets req.clientKey)).2,
         uuidCounter := st.uuidCounter }) := by
  simp [handle, h]

theorem splitChars_ne_nil (l : List Char) : splitChars l ≠ [] := by
  cases l with
  | nil => simp [splitChars]
  | cons c rest =>
    simp only [splitChars]
    by_cases h : c = ' '
    · simp [h]
    · cases hr : splitChars rest with
      | nil => simp [h, hr]
      | cons g gs => simp [h, hr]

theorem splitChars_no_sep (l : List Char) (h : ' ' ∉ l) : splitChars l = [l] := by
  induction l with
  | nil => rfl
  | cons c rest ih =>
    have hc : ¬ c = ' ' := fun he => h (by simp [he])
    have hrest : ' ' ∉ rest := fun hm => h (by simp [hm])
    simp only [splitChars, ih hrest]
    simp [hc]

theorem splitChars_append (w t : List Char) (hw : ' ' ∉ w) :
    splitChars (w ++ ' ' :: t) = w :: splitChars t := by
  induction w with
  | nil => simp [splitChars]
  | cons c rest ih =>
    have hc : ¬ c = ' ' := fun he => hw (by simp [he])
    have hrest : ' ' ∉ rest := fun hm => hw (by simp [hm])
    simp only [List.cons_append, splitChars]
    simp only [List.append_eq]
    rw [ih hrest]
    simp [hc]

theorem strData_append (a b : String) : (a ++ b).data = a.data ++ b.data := by
  cases a
  cases b
  rfl

theorem strMk_data (s : String) : String.mk s.data = s := by
  cases s
  rfl

theorem strData_ne_nil (t : String) (h : t ≠ "") : t.data ≠ [] := by
  intro hd
  apply h
  cases t
  simp only at hd
  rw [hd]

theorem extractToken_pair (w t : String) (hw : ' ' ∉ w.data) (ht : ' ' ∉ t.data)
    (htne : t ≠ "") : extractToken (some (w ++ " " ++ t)) = some t := by
  have hdata : (w ++ " " ++ t).data = w.data ++ ' ' :: t.data := by
    rw [strData_append, strData_append]
    show (w.data ++ [' ']) ++ t.data = _
    simp
  simp only [extractToken]
  rw [hdata, splitChars_append w.data t.data hw, splitChars_no_sep t.data ht]
  simp [strData_ne_nil t htne, strMk_data]

theorem extractToken_single (u : String) (hu : ' ' ∉ u.data) :
    extractToken (some u) = none := by
  simp only [extractToken]
  by_cases h : u.data = []
  · simp [h]
  · rw [splitChars_no_sep u.data hu]
    simp [h]

theorem handle_fst_admitted (verify : String → Option TokenClaims) (st : GatewayState)
    (req : Request) (h : rateAdmits st req = true) :
    (handle verify st req).1 =
      dispatch verify req (chooseRequestId req.xRequestId st.uuidCounter).1 := by
  rw [handle_admitted verify st req h]

theorem handle_fst_rejected (verify : String → Option TokenClaims) (st : GatewayState)
    (req : Request) (h : rateAdmits st req = false) :
    (handle verify st req).1 =
      Outcome.respond { status := 429, errorCode := none, xRequestId := none } := by
  rw [handle_rejected verify st req h]

theorem authenticateToken_ok_iff (verify : String → Option TokenClaims)
    (a : Option String) (u : TokenClaims) :
    authenticateToken verify a = AuthResult.ok u ↔
      ∃ t, extractToken a = some t ∧ verify t = some u := by
  unfold authenticateToken
  cases he : extractToken a with
  | none => simp
  | some t =>
    cases hv : verify t with
    | none => simp [hv]
    | some u0 => simp [hv]

theorem protectedDispatch_forward_iff (verify : String → Option TokenClaims)
    (opts : ProxyOptions) (req : Request) (rid : String) :
    (∃ f, protectedDispatch verify opts req rid = Outcome.forward f ∧
       f.target = opts.target) ↔
      ∃ t u, extractToken req.authorization = some t ∧ verify t = some u := by
  constructor
  · rintro ⟨f, hf, _⟩
    unfold protectedDispatch at hf
    cases ha : authenticateToken verify req.authorization with
    | missing => rw [ha] at hf; cases hf
    | invalid => rw [ha] at hf; cases hf
    | ok u =>
      obtain ⟨t, ht, hu⟩ := (authenticateToken_ok_iff verify req.authorization u).mp ha
      exact ⟨t, u, ht, hu⟩
  · rintro ⟨t, u, ht, hu⟩
    have ha : authenticateToken verify req.authorization = AuthResult.ok u :=
      (authenticateToken_ok_iff verify req.authorization u).mpr ⟨t, ht, hu⟩
    refine ⟨runProxy opts req.path (some u) rid, ?_, rfl⟩
    unfold protectedDispatch
    rw [ha]

theorem dispatch_protected (verify : String → Option TokenClaims) (req : Request)
    (rid : String) (opts : ProxyOptions)
    (h : routeOf req.method req.path = Route.usersProt ∧ opts = usersProxyOptions ∨
         routeOf req.method req.path = Route.ordersProt ∧ opts = ordersProxyOptions) :
    dispatch verify req rid = protectedDispatch verify opts req rid := by
  unfold dispatch
  rcases h with ⟨h1, h2⟩ | ⟨h1, h2⟩ <;> rw [h1, h2]

/-! ## Claim theorems -/

/-- C1: Route rules are evaluated in configured order with the first prefix
match winning: a request to /api/v1/users/auth/login is forwarded to the
users upstream with no token verification and no principal attached
(whatever the Authorization header and whatever the verifier decides),
while a request to /api/v1/users/profile is forwarded to the users upstream
exactly when a bearer token is extracted and verifies successfully. -/
theorem C1_route_order_first_match (verify : String → Option TokenClaims)
    (st : GatewayState) (auth : Option String) (ck : String) (n : Nat)
    (hadm : (rateAllow windowMs maxReqs n (lookupB st.buckets ck)).1 = true) :
    (∃ f, (handle verify st
        { method := "POST", path := "/api/v1/users/auth/login", authorization := auth,
          xRequestId := none, clientKey := ck, now := n }).1 = Outcome.forward f ∧
      f.target = usersProxyOptions.target ∧ f.xUserId = none ∧ f.xUserRole = none) ∧
    ((∃ f, (handle verify st
        { method := "GET", path := "/api/v1/users/profile", authorization := auth,
          xRequestId := none, clientKey := ck, now := n }).1 = Outcome.forward f ∧
      f.target = usersProxyOptions.target) ↔
      ∃ t u, extractToken auth = some t ∧ verify t = some u) := by
  have h1 : rateAdmits st
      { method := "POST", path := "/api/v1/users/auth/login", authorization := auth,
        xRequestId := none, clientKey := ck, now := n } = true := hadm
  have h2 : rateAdmits st
      { method := "GET", path := "/api/v1/users/profile", authorization := auth,
        xRequestId := none, clientKey := ck, now := n } = true := hadm
  constructor
  · refine ⟨runProxy usersProxyOptions "/api/v1/users/auth/login" none
      (chooseRequestId none st.uuidCounter).1, ?_, rfl, rfl, rfl⟩
    rw [handle_fst_admitted verify st _ h1]
    rfl
  · rw [handle_fst_admitted verify st _ h2]
    have hd : ∀ rid, dispatch verify
        { method := "GET", path := "/api/v1/users/profile", authorization := auth,
          xRequestId := none, clientKey := ck, now := n } rid =
        protectedDispatch verify usersProxyOptions
        { method := "GET", path := "/api/v1/users/profile", authorization := auth,
          xRequestId := none, clientKey := ck, now := n } rid :=
      fun rid => rfl
    rw [hd]
    exact protectedDispatch_forward_iff verify usersProxyOptions _ _

/-- C1 witness: on a fresh gateway the public login path is forwarded with
no principal even though no Authorization header is present at all. -/
theorem C1_route_order_first_match_witness :
    ∃ f, (handle (fun _ => none) { buckets := [], uuidCounter := 0 }
      { method := "POST", path := "/api/v1/users/auth/login", authorization := none,
        xRequestId := none, clientKey := "c", now := 0 }).1 = Outcome.forward f ∧
      f.target = usersProxyOptions.target ∧ f.xUserId = none ∧ f.xUserRole = none :=
  (C1_route_order_first_match (fun _ => none) { buckets := [], uuidCounter := 0 }
    none "c" 0 (by decide)).1

/-- C5: fixed-window rate limiting for ceiling C and window W: after C
prior requests from one key inside the window, the next in-window request
is rejected; the first request after the window elapses is admitted
regardless of prior count; within a window the decision is exactly
increment-then-admit-iff-at-most-C; and a rejected request is answered 429
by the gateway. -/
theorem C5_fixed_window_counter (W C t0 t tl : Nat) (ts : List Nat)
    (hts : ∀ s ∈ ts, s - t0 < W) (hlen : ts.length + 1 = C) (ht : t - t0 < W) :
    (rateAllow W C t (applyN W C ts (some { windowStart := t0, count := 1 }))).1 = false ∧
    (∀ b : Bucket, W ≤ tl - b.windowStart → (rateAllow W C tl (some b)).1 = true) ∧
    (∀ b : Bucket, t - b.windowStart < W →
      rateAllow W C t (some b) =
        (decide (b.count + 1 ≤ C), { windowStart := b.windowStart, count := b.count + 1 })) ∧
    (∀ (verify : String → Option TokenClaims) (st : GatewayState) (req : Request),
      rateAdmits st req = false →
      (handle verify st req).1 =
        Outcome.respond { status := 429, errorCode := none, xRequestId := none }) := by
  refine ⟨?_, ?_, ?_, ?_⟩
  · rw [applyN_in_window W C ts t0 1 hts]
    have h1 : 1 + ts.length = C := by omega
    simp only [rateAllow, Nat.not_le.mpr ht, if_false, h1]
    simp only [decide_eq_false_iff_not]
    omega
  · intro b hb
    simp [rateAllow, hb]
  · intro b hb
    simp [rateAllow, Nat.not_le.mpr hb]
  · exact fun verify st req h => handle_fst_rejected verify st req h

/-- C5 witness: with ceiling 2 and window 3, a first request at time 0 and
a second at time 1 fill the bucket, and a third in-window request at
time 2 is rejected. -/
theorem C5_fixed_window_counter_witness :
    (rateAllow 3 2 2 (applyN 3 2 [1] (some { windowStart := 0, count := 1 }))).1 = false :=
  (C5_fixed_window_counter 3 2 0 2 10 [1] (by decide) (by decide) (by decide)).1

/-- C6: on a protected route, a request from which no token can be
extracted is answered 401 (code UNAUTHORIZED, the code's rendering of a
missing credential) and a request whose token the verifier rejects -
whatever the structural, signature or expiry reason - is answered 403
(code INVALID_TOKEN); in both cases nothing is forwarded to any
upstream. -/
theorem C6_missing_and_invalid_credentials (verify : String → Option TokenClaims)
    (st : GatewayState) (req : Request)
    (hroute : routeOf req.method req.path = Route.usersProt ∨
              routeOf req.method req.path = Route.ordersProt)
    (hadm : rateAdmits st req = true) :
    (extractToken req.authorization = none →
      (handle verify st req).1 = Outcome.respond
        { status := 401, errorCode := some "UNAUTHORIZED",
          xRequestId := some (chooseRequestId req.xRequestId st.uuidCounter).1 }) ∧
    (∀ tok, extractToken req.authorization = some tok → verify tok = none →
      (handle verify st req).1 = Outcome.respond
        { status := 403, errorCode := some "INVALID_TOKEN",
          xRequestId := some (chooseRequestId req.xRequestId st.uuidCounter).1 }) ∧
    ((extractToken req.authorization = none ∨
      (∃ tok, extractToken req.authorization = some tok ∧ verify tok = none)) →
      ∀ f, (handle verify st req).1 ≠ Outcome.forward f) := by
  have hopts : ∃ opts, dispatch verify req (chooseRequestId req.xRequestId st.uuidCounter).1 =
      protectedDispatch verify opts req (chooseRequestId req.xRequestId st.uuidCounter).1 := by
    cases hroute with
    | inl h => exact ⟨usersProxyOptions, dispatch_protected verify req _ _ (Or.inl ⟨h, rfl⟩)⟩
    | inr h => exact ⟨ordersProxyOptions, dispatch_protected verify req _ _ (Or.inr ⟨h, rfl⟩)⟩
  obtain ⟨opts, hd⟩ := hopts
  rw [handle_fst_admitted verify st req hadm, hd]
  refine ⟨?_, ?_, ?_⟩
  · intro hnone
    unfold protectedDispatch authenticateToken
    rw [hnone]
  · intro tok htok hv
    unfold protectedDispatch authenticateToken
    rw [htok]
    simp [hv]
  · intro hcase f
    unfold protectedDispatch authenticateToken
    rcases hcase with hnone | ⟨tok, htok, hv⟩
    · rw [hnone]
      simp
    · rw [htok]
      simp [hv]

/-- C6 witness: on a fresh gateway a profile request with no Authorization
header is answered 401 UNAUTHORIZED. -/
theorem C6_missing_and_invalid_credentials_witness :
    (handle (fun _ => none) { buckets := [], uuidCounter := 0 }
      { method := "GET", path := "/api/v1/users/profile", authorization := none,
        xRequestId := none, clientKey := "c", now := 0 }).1 = Outcome.respond
        { status := 401, errorCode := some "UNAUTHORIZED",
          xRequestId := some (genUuid 0) } :=
  (C6_missing_and_invalid_credentials (fun _ => none) { buckets := [], uuidCounter := 0 }
    { method := "GET", path := "/api/v1/users/profile", authorization := none,
      xRequestId := none, clientKey := "c", now := 0 }
    (Or.inl (by decide)) (by decide)).1 rfl

/-- C9: token extraction is scheme-agnostic: for an Authorization header of
the form word-space-token the second space-separated segment is what gets
verified, whatever the first word is; a header that is a single word with
no space yields no token, hence the missing-credential 401 branch. -/
theorem C9_scheme_agnostic_extraction (w t u : String)
    (verify : String → Option TokenClaims)
    (hw : ' ' ∉ w.data) (ht : ' ' ∉ t.data) (htne : t ≠ "") (hu : ' ' ∉ u.data) :
    extractToken (some (w ++ " " ++ t)) = some t ∧
    (∀ c, verify t = some c →
      authenticateToken verify (some (w ++ " " ++ t)) = AuthResult.ok c) ∧
    (verify t = none →
      authenticateToken verify (some (w ++ " " ++ t)) = AuthResult.invalid) ∧
    extractToken (some u) = none ∧
    authenticateToken verify (some u) = AuthResult.missing ∧
    (∀ (opts : ProxyOptions) (req : Request) (rid : String),
      req.authorization = some u →
      protectedDispatch verify opts req rid = Outcome.respond
        { status := 401, errorCode := some "UNAUTHORIZED", xRequestId := some rid }) := by
  have hp := extractToken_pair w t hw ht htne
  have hs := extractToken_single u hu
  refine ⟨hp, ?_, ?_, hs, ?_, ?_⟩
  · intro c hc
    unfold authenticateToken
    rw [hp]
    simp [hc]
  · intro hc
    unfold authenticateToken
    rw [hp]
    simp [hc]
  · unfold authenticateToken
    rw [hs]
  · intro opts req rid hra
    unfold protectedDispatch authenticateToken
    rw [hra, hs]

/-- C9 witness: a Basic-scheme header has its second segment extracted as
the token, and a bare one-word Bearer header yields no token. -/
theorem C9_scheme_agnostic_extraction_witness :
    extractToken (some ("Basic" ++ " " ++ "abc")) = some "abc" ∧
    extractToken (some "Bearer") = none :=
  ⟨(C9_scheme_agnostic_extraction "Basic" "abc" "Bearer" (fun _ => none)
      (by decide) (by decide) (by decide) (by decide)).1,
   (C9_scheme_agnostic_extraction "Basic" "abc" "Bearer" (fun _ => none)
      (by decide) (by decide) (by decide) (by decide)).2.2.2.1⟩

theorem gatewayHandle_not_options (verify : String → Option TokenClaims)
    (st : GatewayState) (req : Request) (h : ¬ req.method = "OPTIONS") :
    gatewayHandle verify st req = handle verify st req := by
  simp [gatewayHandle, h]

theorem gatewayHandle_options (verify : String → Option TokenClaims)
    (st : GatewayState) (req : Request) (h : req.method = "OPTIONS") :
    gatewayHandle verify st req =
      (Outcome.respond { status := 204, errorCode := none, xRequestId := none }, st) := by
  simp [gatewayHandle, h]

/-- C10 counterexample: cors, registered before the limiter, terminates an
OPTIONS request with 204: on a fresh gateway no bucket is created for it,
and even a client whose bucket is already at the ceiling is answered 204,
not 429 - so not every inbound request counts against its bucket, and an
OPTIONS request can never be rate-limit rejected. -/
theorem C10_counterexample_options_preflight :
    (gatewayHandle (fun _ => none) { buckets := [], uuidCounter := 0 }
      { method := "OPTIONS", path := "/api/v1/orders", authorization := none,
        xRequestId := none, clientKey := "k0", now := 0 }).2 =
      { buckets := [], uuidCounter := 0 } ∧
    (gatewayHandle (fun _ => none)
      { buckets := [("k0", { windowStart := 0, count := 100 })], uuidCounter := 0 }
      { method := "OPTIONS", path := "/api/v1/orders", authorization := none,
        xRequestId := none, clientKey := "k0", now := 1 }).1 =
      Outcome.respond { status := 204, errorCode := none, xRequestId := none } :=
  ⟨by decide, by decide⟩

/-- C10 (amended): cors answers OPTIONS preflights 204 before the limiter,
leaving the state untouched, so they never count; every other request -
whatever its method and path, including the root, health and unmatched
paths - counts against its client's bucket, and once the decision is
negative the gateway answers 429 regardless of path. -/
theorem C10_limiter_after_cors (verify : String → Option TokenClaims)
    (st : GatewayState) (req : Request) :
    (req.method ≠ "OPTIONS" →
      lookupB (gatewayHandle verify st req).2.buckets req.clientKey =
        some (rateAllow windowMs maxReqs req.now (lookupB st.buckets req.clientKey)).2 ∧
      (rateAdmits st req = false →
        (gatewayHandle verify st req).1 =
          Outcome.respond { status := 429, errorCode := none, xRequestId := none })) ∧
    (req.method = "OPTIONS" →
      gatewayHandle verify st req =
        (Outcome.respond { status := 204, errorCode := none, xRequestId := none }, st)) := by
  constructor
  · intro hm
    rw [gatewayHandle_not_options verify st req hm]
    constructor
    · cases h : rateAdmits st req
      · rw [handle_rejected verify st req h]
        exact lookupB_updateB _ _ _
      · rw [handle_admitted verify st req h]
        exact lookupB_updateB _ _ _
    · exact handle_fst_rejected verify st req
  · exact gatewayHandle_options verify st req

/-- C10 witness: a GET / request from a client whose bucket already holds
100 in-window requests is answered 429. -/
theorem C10_limiter_after_cors_witness :
    (gatewayHandle (fun _ => none)
      { buckets := [("k", { windowStart := 0, count := 100 })], uuidCounter := 0 }
      { method := "GET", path := "/", authorization := none, xRequestId := none,
        clientKey := "k", now := 1 }).1 =
      Outcome.respond { status := 429, errorCode := none, xRequestId := none } :=
  ((C10_limiter_after_cors (fun _ => none)
    { buckets := [("k", { windowStart := 0, count := 100 })], uuidCounter := 0 }
    { method := "GET", path := "/", authorization := none, xRequestId := none,
      clientKey := "k", now := 1 }).1 (by decide)).2 (by decide)

/-- C3 counterexample: a client whose bucket already holds 100 in-window
requests sends a request carrying X-Request-ID abc; the 429 rejection the
gateway emits carries no X-Request-ID response header, so not every
rejection carries the header. -/
theorem C3_counterexample_429_without_header :
    ∃ r, (handle (fun _ => none)
      { buckets := [("9.9.9.9", { windowStart := 0, count := 100 })], uuidCounter := 0 }
      { method := "GET", path := "/api/v1/users/profile", authorization := none,
        xRequestId := some "abc", clientKey := "9.9.9.9", now := 1 }).1 =
      Outcome.respond r ∧ r.xRequestId = none :=
  ⟨{ status := 429, errorCode := none, xRequestId := none }, by decide, rfl⟩

/-- C3 (amended): the enricher runs after the rate limiter but before all
routing, auth and the 404 handler: every admitted request's outcome -
success, auth failure, not-found or a forwarded call - carries an
X-Request-ID, while a rate-limited request is answered 429 with no
X-Request-ID header. -/
theorem C3_enricher_after_limiter_before_routes (verify : String → Option TokenClaims)
    (st : GatewayState) (req : Request) :
    (rateAdmits st req = true → ∃ v, respXrid (handle verify st req).1 = some v) ∧
    (rateAdmits st req = false →
      (handle verify st req).1 =
        Outcome.respond { status := 429, errorCode := none, xRequestId := none } ∧
      respXrid (handle verify st req).1 = none) := by
  constructor
  · intro h
    rw [handle_fst_admitted verify st req h]
    exact ⟨_, respXrid_dispatch verify req _⟩
  · intro h
    rw [handle_fst_rejected verify st req h]
    exact ⟨rfl, rfl⟩

/-- C3 witness: an admitted request to an unmatched path still gets an
X-Request-ID on its 404 response. -/
theorem C3_enricher_after_limiter_before_routes_witness :
    ∃ v, respXrid (handle (fun _ => none) { buckets := [], uuidCounter := 0 }
      { method := "GET", path := "/nope", authorization := none, xRequestId := none,
        clientKey := "w3", now := 0 }).1 = some v :=
  (C3_enricher_after_limiter_before_routes (fun _ => none)
    { buckets := [], uuidCounter := 0 }
    { method := "GET", path := "/nope", authorization := none, xRequestId := none,
      clientKey := "w3", now := 0 }).1 (by decide)

/-- C7 counterexample: a rate-limited request carrying X-Request-ID abc-123
is answered without that header value - the response carries no
X-Request-ID at all - so the round-trip does not hold for every request. -/
theorem C7_counterexample_rate_limited_roundtrip :
    ∃ r, (handle (fun _ => none)
      { buckets := [("8.8.8.8", { windowStart := 0, count := 100 })], uuidCounter := 5 }
      { method := "GET", path := "/health", authorization := none,
        xRequestId := some "abc-123", clientKey := "8.8.8.8", now := 2 }).1 =
      Outcome.respond r ∧ r.xRequestId ≠ some "abc-123" :=
  ⟨{ status := 429, errorCode := none, xRequestId := none }, by decide, by decide⟩

/-- C7 (amended): for requests the rate limiter admits, a non-empty inbound
X-Request-ID is echoed verbatim in the response; an absent or empty one is
answered with a freshly drawn non-empty id, and two consecutive admitted
requests without inbound ids never receive the same id. -/
theorem C7_correlation_roundtrip_amended (verify verify2 : String → Option TokenClaims)
    (st : GatewayState) (req req2 : Request) (hadm : rateAdmits st req = true) :
    (∀ v, req.xRequestId = some v → v ≠ "" →
      respXrid (handle verify st req).1 = some v) ∧
    ((req.xRequestId = none ∨ req.xRequestId = some "") →
      respXrid (handle verify st req).1 = some (genUuid st.uuidCounter) ∧
      genUuid st.uuidCounter ≠ "") ∧
    ((req.xRequestId = none ∨ req.xRequestId = some "") →
      (req2.xRequestId = none ∨ req2.xRequestId = some "") →
      rateAdmits (handle verify st req).2 req2 = true →
      respXrid (handle verify2 (handle verify st req).2 req2).1 ≠
        respXrid (handle verify st req).1) := by
  have hr : (req.xRequestId = none ∨ req.xRequestId = some "") →
      respXrid (handle verify st req).1 = some (genUuid st.uuidCounter) := by
    intro hno
    rw [handle_fst_admitted verify st req hadm, respXrid_dispatch]
    rcases hno with h | h <;> simp [chooseRequestId, h]
  refine ⟨?_, fun hno => ⟨hr hno, genUuid_ne_empty st.uuidCounter⟩, ?_⟩
  · intro v hv hne
    rw [handle_fst_admitted verify st req hadm, respXrid_dispatch, hv]
    simp [chooseRequestId, hne]
  · intro hno hno2 hadm2
    have hs2 : (handle verify st req).2.uuidCounter = st.uuidCounter + 1 := by
      rw [handle_admitted verify st req hadm]
      rcases hno with h | h <;> simp [chooseRequestId, h]
    rw [handle_fst_admitted verify2 _ req2 hadm2, respXrid_dispatch, hr hno]
    have hl : (chooseRequestId req2.xRequestId (handle verify st req).2.uuidCounter).1 =
        genUuid (st.uuidCounter + 1) := by
      rw [hs2]
      rcases hno2 with h | h <;> simp [chooseRequestId, h]
    rw [hl]
    intro he
    exact genUuid_ne_of_ne (by omega : st.uuidCounter + 1 ≠ st.uuidCounter)
      (Option.some.inj he)

/-- C7 witness: on a fresh gateway a request without an inbound id receives
the first drawn id, which is non-empty. -/
theorem C7_correlation_roundtrip_amended_witness :
    respXrid (handle (fun _ => none) { buckets := [], uuidCounter := 0 }
      { method := "GET", path := "/health", authorization := none, xRequestId := none,
        clientKey := "w7", now := 0 }).1 = some (genUuid 0) ∧ genUuid 0 ≠ "" :=
  (C7_correlation_roundtrip_amended (fun _ => none) (fun _ => none)
    { buckets := [], uuidCounter := 0 }
    { method := "GET", path := "/health", authorization := none, xRequestId := none,
      clientKey := "w7", now := 0 }
    { method := "GET", path := "/health", authorization := none, xRequestId := none,
      clientKey := "w7", now := 0 } (by decide)).2.1 (Or.inl rfl)

theorem dispatch_respond_code (verify : String → Option TokenClaims) (req : Request)
    (rid : String) (r : Response) (h : dispatch verify req rid = Outcome.respond r) :
    r.errorCode = none ∨ r.errorCode = some "UNAUTHORIZED" ∨
    r.errorCode = some "INVALID_TOKEN" ∨ r.errorCode = some "NOT_FOUND" := by
  unfold dispatch at h
  cases hro : routeOf req.method req.path <;> rw [hro] at h
  case root =>
    simp only [Outcome.respond.injEq] at h
    subst h
    simp
  case usersPublic => simp at h
  case health =>
    simp only [Outcome.respond.injEq] at h
    subst h
    simp
  case notFound =>
    simp only [Outcome.respond.injEq] at h
    subst h
    simp
  case usersProt =>
    unfold protectedDispatch at h
    cases ha : authenticateToken verify req.authorization <;> rw [ha] at h
    case missing =>
      simp only [Outcome.respond.injEq] at h
      subst h
      simp
    case invalid =>
      simp only [Outcome.respond.injEq] at h
      subst h
      simp
    case ok => simp at h
  case ordersProt =>
    unfold protectedDispatch at h
    cases ha : authenticateToken verify req.authorization <;> rw [ha] at h
    case missing =>
      simp only [Outcome.respond.injEq] at h
      subst h
      simp
    case invalid =>
      simp only [Outcome.respond.injEq] at h
      subst h
      simp
    case ok => simp at h

/-- C2 counterexample: the proxy options configure no error handler and no
timeout, and the gateway forwards a matching request as-is: the response an
unreachable upstream produces through the dependency's built-in fallback
has status 504, not 502, and carries no UPSTREAM_UNAVAILABLE error code. -/
theorem C2_counterexample_no_upstream_unavailable :
    usersProxyOptions.hasOnError = false ∧ usersProxyOptions.proxyTimeout = none ∧
    ordersProxyOptions.hasOnError = false ∧ ordersProxyOptions.proxyTimeout = none ∧
    ∃ f, (handle (fun _ => none) { buckets := [], uuidCounter := 0 }
      { method := "POST", path := "/api/v1/users/auth/login", authorization := none,
        xRequestId := some "r1", clientKey := "c2", now := 0 }).1 = Outcome.forward f ∧
      (connFailureResponse f).status ≠ 502 ∧
      (connFailureResponse f).errorCode ≠ some "UPSTREAM_UNAVAILABLE" :=
  ⟨rfl, rfl, rfl, rfl,
   { target := "http://localhost:3001", outPath := "/api/v1/auth/login",
     xUserId := none, xUserRole := none, resXRequestId := "r1" },
   by decide, by decide, by decide⟩

/-- C2 (amended): the gateway configures no error handler and no timeout on
either proxy, so a request forwarded to an unreachable upstream is answered
by the proxy dependency's built-in fallback - status 504 with no JSON
envelope, carrying the already-stamped X-Request-ID - and no response the
gateway itself authors ever carries code UPSTREAM_UNAVAILABLE. -/
theorem C2_upstream_down_amended (verify : String → Option TokenClaims)
    (st : GatewayState) (req : Request) :
    usersProxyOptions.hasOnError = false ∧ usersProxyOptions.proxyTimeout = none ∧
    ordersProxyOptions.hasOnError = false ∧ ordersProxyOptions.proxyTimeout = none ∧
    (∀ f, (handle verify st req).1 = Outcome.forward f →
      connFailureResponse f =
        { status := 504, errorCode := none, xRequestId := some f.resXRequestId }) ∧
    (∀ r, (handle verify st req).1 = Outcome.respond r →
      r.errorCode ≠ some "UPSTREAM_UNAVAILABLE") := by
  refine ⟨rfl, rfl, rfl, rfl, fun f _ => rfl, ?_⟩
  intro r hr
  cases h : rateAdmits st req
  · rw [handle_fst_rejected verify st req h] at hr
    simp only [Outcome.respond.injEq] at hr
    subst hr
    simp
  · rw [handle_fst_admitted verify st req h] at hr
    rcases dispatch_respond_code verify req _ r hr with h1 | h1 | h1 | h1 <;>
      rw [h1] <;> simp

/-- C2 witness: the connection-failure fallback for a concrete forwarded
login request is the plain 504 with the stamped correlation id. -/
theorem C2_upstream_down_amended_witness :
    connFailureResponse
      { target := "http://localhost:3001", outPath := "/api/v1/auth/login",
        xUserId := none, xUserRole := none, resXRequestId := "r1" } =
      { status := 504, errorCode := none, xRequestId := some "r1" } :=
  (C2_upstream_down_amended (fun _ => none) { buckets := [], uuidCounter := 0 }
    { method := "POST", path := "/api/v1/users/auth/login", authorization := none,
      xRequestId := some "r1", clientKey := "c2w", now := 0 }).2.2.2.2.1
    { target := "http://localhost:3001", outPath := "/api/v1/auth/login",
      xUserId := none, xUserRole := none, resXRequestId := "r1" } (by decide)

/-- C4 (code bug): onProxyReq reads the payload field role, but tokens
signed by the users service carry the claim key roles; for a verified token
with roles = [user], the outbound call carries X-User-ID = the subject id
while X-User-Role is undefined (none) - the role list embedded in the
verified token is not what the header carries. -/
theorem C4_role_header_undefined :
    (∀ u : TokenClaims, claimsGet u "role" = none) ∧
    (usersServiceSign { userId := "u1", email := "u1@example.com", roles := ["user"] }
        0).claims.roles = ["user"] ∧
    ∃ f, (handle (fun s => if s = "tok"
          then some { userId := "u1", email := "u1@example.com", roles := ["user"] }
          else none)
        { buckets := [], uuidCounter := 0 }
        { method := "GET", path := "/api/v1/users/profile",
          authorization := some "Bearer tok", xRequestId := some "rid4",
          clientKey := "c4", now := 0 }).1 = Outcome.forward f ∧
      f.xUserId = some (JsVal.str "u1") ∧ f.xUserRole = none := by
  refine ⟨fun u => rfl, rfl, ?_⟩
  refine ⟨{ target := "http://localhost:3001", outPath := "/api/v1/profile",
            xUserId := some (JsVal.str "u1"), xUserRole := none,
            resXRequestId := "rid4" }, by decide, rfl, rfl⟩

/-- C8: under default configuration the gateway verifies with secret
your-secret-key while the users service signs with my-key; the secrets
differ, every users-service-signed token fails gateway verification at
every time instant, and a protected-route request presenting only such
tokens is rejected 401 or 403 and never forwarded. -/
theorem C8_default_secret_mismatch (decode : String → Option SignedToken)
    (now : Nat) (st : GatewayState) (req : Request)
    (hroute : routeOf req.method req.path = Route.usersProt ∨
              routeOf req.method req.path = Route.ordersProt)
    (hadm : rateAdmits st req = true)
    (hsigned : ∀ s tk, decode s = some tk → tk.secret = usersJwtSecret) :
    gatewayJwtSecret = "your-secret-key" ∧ usersJwtSecret = "my-key" ∧
    gatewayJwtSecret ≠ usersJwtSecret ∧
    (∀ c n0 n1, verifyToken n1 gatewayJwtSecret (usersServiceSign c n0) = none) ∧
    (∀ f, (handle (gatewayVerify decode now) st req).1 ≠ Outcome.forward f) ∧
    (∃ r, (handle (gatewayVerify decode now) st req).1 = Outcome.respond r ∧
      (r.status = 401 ∨ r.status = 403)) := by
  have hv : ∀ s, gatewayVerify decode now s = none := by
    intro s
    unfold gatewayVerify
    cases hd : decode s with
    | none => rfl
    | some tk =>
      have hsec := hsigned s tk hd
      simp [verifyToken, hsec, usersJwtSecret, gatewayJwtSecret]
  have hvt : ∀ c n0 n1, verifyToken n1 gatewayJwtSecret (usersServiceSign c n0) = none := by
    intro c n0 n1
    simp [verifyToken, usersServiceSign, usersJwtSecret, gatewayJwtSecret]
  have ha : authenticateToken (gatewayVerify decode now) req.authorization =
        AuthResult.missing ∨
      authenticateToken (gatewayVerify decode now) req.authorization =
        AuthResult.invalid := by
    unfold authenticateToken
    cases he : extractToken req.authorization with
    | none => left; rfl
    | some t => right; simp [hv t]
  obtain ⟨opts, hd⟩ : ∃ opts,
      dispatch (gatewayVerify decode now) req
        (chooseRequestId req.xRequestId st.uuidCounter).1 =
      protectedDispatch (gatewayVerify decode now) opts req
        (chooseRequestId req.xRequestId st.uuidCounter).1 := by
    cases hroute with
    | inl h => exact ⟨usersProxyOptions, dispatch_protected _ req _ _ (Or.inl ⟨h, rfl⟩)⟩
    | inr h => exact ⟨ordersProxyOptions, dispatch_protected _ req _ _ (Or.inr ⟨h, rfl⟩)⟩
  refine ⟨rfl, rfl, by decide, hvt, ?_, ?_⟩
  · intro f
    rw [handle_fst_admitted _ st req hadm, hd]
    unfold protectedDispatch
    rcases ha with h | h <;> rw [h] <;> simp
  · rw [handle_fst_admitted _ st req hadm, hd]
    unfold protectedDispatch
    rcases ha with h | h <;> rw [h]
    · exact ⟨_, rfl, Or.inl rfl⟩
    · exact ⟨_, rfl, Or.inr rfl⟩

/-- C8 witness: a token the users service signs at time 0 fails gateway
verification at time 1 under the default secrets. -/
theorem C8_default_secret_mismatch_witness :
    verifyToken 1 gatewayJwtSecret
      (usersServiceSign { userId := "a", email := "e", roles := ["user"] } 0) = none :=
  (C8_default_secret_mismatch (fun _ => none) 0 { buckets := [], uuidCounter := 0 }
    { method := "GET", path := "/api/v1/users/profile", authorization := some "Bearer x",
      xRequestId := none, clientKey := "c8", now := 0 }
    (Or.inl (by decide)) (by decide) (fun s tk h => nomatch h)).2.2.2.1
    { userId := "a", email := "e", roles := ["user"] } 0 1
